import Mathlib

/-!
Verification development for a single-file password vault
(`encryptor.py`, `password_db.py`, `password_manager.py`).

Bytes are modelled as natural numbers, byte strings as `List Nat`, and the
on-disk container as `Option (List Nat)` (`none` = file absent).  Library
calls (PBKDF2 key derivation, AES-CBC block encryption, JSON
serialization) are modelled as a parameter record `CryptoLib`; the
properties those libraries provide (length preservation, decrypt-of-encrypt
identity on block-aligned input, parse-of-print identity) are collected in
`GoodLib`.  Everything the repository itself implements (padding, the
container layout, load/save/rotate control flow, the CRUD merge logic) is
translated directly from the source.
-/

/-- One credential record: the five string fields stored per product
(`password_manager.py`, `add_password`). -/
structure Record where
  account : String
  password : String
  email : String
  phone : String
  remark : String
deriving DecidableEq, Repr

/-- The decrypted record map: product name to record.  Python uses a dict
with unique keys; we model it as an association list. -/
abbrev RecordMap := List (String × Record)

/-- UTF-8-ish byte view of a string (`password.encode` in the source); only
injectivity matters since it is fed to the abstract KDF. -/
def strBytes (s : String) : List Nat := s.data.map Char.toNat

/-- Abstract interface for the cryptographic and serialization libraries the
source calls: PBKDF2 (`kdf`), AES-CBC encrypt/decrypt (`cbcE`/`cbcD`,
decryption returning `none` models the ValueError raised on a ciphertext
that is not a positive multiple of the block size), and `json.dumps` /
`json.loads` (`dumps`/`loads`, with `loads` returning `none` on a byte
sequence that is not valid UTF-8 JSON). -/
structure CryptoLib where
  kdf : List Nat → List Nat → List Nat
  cbcE : List Nat → List Nat → List Nat → List Nat
  cbcD : List Nat → List Nat → List Nat → Option (List Nat)
  dumps : RecordMap → List Nat
  loads : List Nat → Option RecordMap

/-- The contracts the real libraries satisfy: CBC encryption preserves
length; CBC decryption inverts encryption on block-aligned input; JSON
parsing inverts JSON printing. -/
def GoodLib (L : CryptoLib) : Prop :=
  (∀ k iv x, (L.cbcE k iv x).length = x.length) ∧
  (∀ k iv x, x.length % 16 = 0 → L.cbcD k iv (L.cbcE k iv x) = some x) ∧
  (∀ r, L.loads (L.dumps r) = some r)

/-- PKCS7 padding exactly as `Encryptor.encrypt` computes it
(`encryptor.py` lines 63-66): append `padding_length` bytes each holding
the value `padding_length = 16 - (len mod 16)`. -/
def padPlain (json : List Nat) : List Nat :=
  json ++ List.replicate (16 - json.length % 16) (16 - json.length % 16)

/-- `Encryptor.encrypt` (`encryptor.py` lines 42-71): JSON-serialize,
derive the key from the passphrase and salt, pad, CBC-encrypt.  The fresh
random salt and IV drawn from `os.urandom(16)` are passed in as
parameters. -/
def encrypt (L : CryptoLib) (password : String) (salt iv : List Nat)
    (data : RecordMap) : List Nat × List Nat × List Nat :=
  let json_data := L.dumps data
  let key := L.kdf (strBytes password) salt
  (salt, iv, L.cbcE key iv (padPlain json_data))

/-- Padding removal exactly as `Encryptor.decrypt` performs it
(`encryptor.py` lines 93-95): read the last byte `p` (IndexError on an
empty buffer, caught and turned into a failure) and keep `padded[:-p]`;
note Python's `x[:-0]` is the empty slice, and `x[:-p]` for `p > len x`
is also empty, which Nat subtraction reproduces. -/
def stripPad (padded : List Nat) : Option (List Nat) :=
  match padded.getLast? with
  | none => none
  | some p => some (if p = 0 then [] else padded.take (padded.length - p))

/-- `Encryptor.decrypt` (`encryptor.py` lines 73-102): derive the key,
CBC-decrypt, strip padding, parse JSON; any failure in the chain is caught
by the blanket `except` and becomes the single value `none`. -/
def decrypt (L : CryptoLib) (password : String) (salt iv ct : List Nat) :
    Option RecordMap :=
  match L.cbcD (L.kdf (strBytes password) salt) iv ct with
  | none => none
  | some padded =>
    match stripPad padded with
    | none => none
    | some plaintext => L.loads plaintext

/-- `PasswordDB.load_data` (`password_db.py` lines 31-61): absent file
yields the empty map; otherwise split the container into
salt(16) / iv(16) / ciphertext, reject short files, and decrypt. -/
def load_data (L : CryptoLib) (password : String) (fs : Option (List Nat)) :
    Option RecordMap :=
  match fs with
  | none => some []
  | some bytes =>
    let salt := bytes.take 16
    let iv := (bytes.drop 16).take 16
    let ct := bytes.drop 32
    if salt.length ≠ 16 ∨ iv.length ≠ 16 then none
    else decrypt L password salt iv ct

/-- `PasswordDB.save_data` (`password_db.py` lines 63-86): encrypt and
write `salt ++ iv ++ ciphertext` to the database path.  Filesystem write
errors are outside the model, so the Bool success flag is always true;
the second component is the byte content the file holds afterwards. -/
def save_data (L : CryptoLib) (password : String) (salt iv : List Nat)
    (data : RecordMap) : Bool × List Nat :=
  let r := encrypt L password salt iv data
  (true, r.1 ++ r.2.1 ++ r.2.2)

/-- Intermediate on-disk states of `PasswordDB.save_data`'s write sequence
(`password_db.py` lines 77-80): `open(path, 'wb')` truncates the file, then
salt, IV and ciphertext are written one after the other.  A crash can leave
any of these states behind. -/
def save_write_states (L : CryptoLib) (password : String)
    (salt iv : List Nat) (data : RecordMap) (old : Option (List Nat)) :
    List (Option (List Nat)) :=
  let ct := (encrypt L password salt iv data).2.2
  [old, some [], some salt, some (salt ++ iv), some (salt ++ iv ++ ct)]

/-- `PasswordDB.initialize_database` (`password_db.py` lines 88-98): if the
container file exists, return success without writing; otherwise save an
empty map under the given passphrase. -/
def init_database (L : CryptoLib) (password : String) (salt iv : List Nat)
    (fs : Option (List Nat)) : Bool × Option (List Nat) :=
  match fs with
  | some c => (true, some c)
  | none =>
    let r := save_data L password salt iv []
    (r.1, some r.2)

/-- `PasswordDB.change_password` (`password_db.py` lines 100-115): load
with the old passphrase; on failure return False without touching the
file, otherwise re-save under the new passphrase. -/
def change_password (L : CryptoLib) (old_password new_password : String)
    (salt iv : List Nat) (fs : Option (List Nat)) :
    Bool × Option (List Nat) :=
  match load_data L old_password fs with
  | none => (false, fs)
  | some data =>
    let r := save_data L new_password salt iv data
    (r.1, some r.2)

/-- Lookup of a product name in the record map (Python dict indexing). -/
def lookupKey (k : String) : RecordMap → Option Record
  | [] => none
  | kv :: rest => if kv.1 = k then some kv.2 else lookupKey k rest

/-- Membership test on the record map (Python's `product_name in data`). -/
def containsKey (k : String) (m : RecordMap) : Bool :=
  (lookupKey k m).isSome

/-- The field merge `PasswordManager.update_password` performs on one
record (`password_manager.py` lines 135-144): each field is replaced only
when a new value is supplied, otherwise it keeps its prior value. -/
def mergeRec (rec : Record) (account password email phone remark : Option String) :
    Record :=
  { account := account.getD rec.account
    password := password.getD rec.password
    email := email.getD rec.email
    phone := phone.getD rec.phone
    remark := remark.getD rec.remark }

/-- Effect of `update_password`'s in-place dict mutation on the record map:
the entry named `name` gets the merged record, every other entry is kept
as it is. -/
def applyUpdate (m : RecordMap) (name : String)
    (account password email phone remark : Option String) : RecordMap :=
  m.map fun kv =>
    if kv.1 = name then (kv.1, mergeRec kv.2 account password email phone remark)
    else kv

/-- State of a `PasswordManager` (`password_manager.py`): the database file
content plus the session passphrase field `current_password`. -/
structure MgrState where
  fs : Option (List Nat)
  current_password : Option String
deriving DecidableEq

/-- `PasswordManager.is_authenticated` (`password_manager.py` lines 37-47):
a session passphrase is held and still opens the database. -/
def is_authenticated (L : CryptoLib) (st : MgrState) : Bool :=
  match st.current_password with
  | none => false
  | some pw => (load_data L pw st.fs).isSome

/-- `PasswordManager._get_data` (`password_manager.py` lines 49-54). -/
def mgrGetData (L : CryptoLib) (st : MgrState) : Option RecordMap :=
  if is_authenticated L st then
    match st.current_password with
    | some pw => load_data L pw st.fs
    | none => none
  else none

/-- `PasswordManager._save_data` (`password_manager.py` lines 56-61): save
under the session passphrase, with fresh random salt and IV passed in. -/
def mgrSaveData (L : CryptoLib) (st : MgrState) (data : RecordMap)
    (salt iv : List Nat) : Bool × MgrState :=
  if is_authenticated L st then
    match st.current_password with
    | some pw =>
      let r := save_data L pw salt iv data
      (r.1, { st with fs := some r.2 })
    | none => (false, st)
  else (false, st)

/-- `PasswordManager.authenticate` (`password_manager.py` lines 23-35):
try to load with the supplied passphrase; on success store it as the
session passphrase. -/
def authenticate (L : CryptoLib) (st : MgrState) (password : String) :
    Bool × MgrState :=
  match load_data L password st.fs with
  | some _ => (true, { st with current_password := some password })
  | none => (false, st)

/-- `PasswordManager.update_password` (`password_manager.py` lines
113-146): load the map, fail if the product is missing, merge the supplied
fields into its record, save. -/
def update_password (L : CryptoLib) (st : MgrState) (name : String)
    (account password email phone remark : Option String)
    (salt iv : List Nat) : Bool × MgrState :=
  match mgrGetData L st with
  | none => (false, st)
  | some data =>
    if containsKey name data then
      mgrSaveData L st (applyUpdate data name account password email phone remark)
        salt iv
    else (false, st)

/-- Length-prefixed byte encoding of a string, used by the concrete
witness serializer standing in for `json.dumps` on strings. -/
def encStr (s : String) : List Nat := (strBytes s).length :: strBytes s

/-- Decoder matching `encStr`; returns the string and the unconsumed
remainder. -/
def decStr : List Nat → Option (String × List Nat)
  | [] => none
  | n :: rest =>
    if n ≤ rest.length then
      some (String.mk ((rest.take n).map Char.ofNat), rest.drop n)
    else none

/-- Concrete byte encoding of one record (five length-prefixed fields). -/
def encRec (r : Record) : List Nat :=
  encStr r.account ++ encStr r.password ++ encStr r.email ++
    encStr r.phone ++ encStr r.remark

/-- Decoder matching `encRec`. -/
def decRec (l : List Nat) : Option (Record × List Nat) := do
  let (a, l1) ← decStr l
  let (p, l2) ← decStr l1
  let (e, l3) ← decStr l2
  let (ph, l4) ← decStr l3
  let (rm, l5) ← decStr l4
  some (⟨a, p, e, ph, rm⟩, l5)

/-- Concrete byte encoding of the entry list of a record map. -/
def encEntries : RecordMap → List Nat
  | [] => []
  | kv :: rest => encStr kv.1 ++ encRec kv.2 ++ encEntries rest

/-- Decoder matching `encEntries`, driven by the announced entry count. -/
def decEntries : Nat → List Nat → Option RecordMap
  | 0, _ => some []
  | n + 1, l => do
    let (k, l1) ← decStr l
    let (r, l2) ← decRec l1
    let rest ← decEntries n l2
    some ((k, r) :: rest)

/-- Concrete injective serializer standing in for `json.dumps` in the
witness instantiation of `CryptoLib`. -/
def toyDumps (m : RecordMap) : List Nat := m.length :: encEntries m

/-- Concrete parser standing in for `json.loads`; inverts `toyDumps` and
rejects malformed input with `none`. -/
def toyLoads : List Nat → Option RecordMap
  | [] => none
  | n :: l => decEntries n l

theorem decStr_encStr (s : String) (t : List Nat) :
    decStr (encStr s ++ t) = some (s, t) := by
  have h1 : (strBytes s ++ t).take (strBytes s).length = strBytes s :=
    List.take_left _ _
  have h2 : (strBytes s ++ t).drop (strBytes s).length = t :=
    List.drop_left _ _
  simp only [encStr, List.cons_append, decStr, h1, h2,
    if_pos (by simp : (strBytes s).length ≤ (strBytes s ++ t).length)]
  simp [strBytes, List.map_map, Function.comp_def, Char.ofNat_toNat]

theorem decRec_encRec (r : Record) (t : List Nat) :
    decRec (encRec r ++ t) = some (r, t) := by
  simp [encRec, decRec, List.append_assoc, decStr_encStr]

theorem decEntries_encEntries (m : RecordMap) :
    decEntries m.length (encEntries m) = some m := by
  induction m with
  | nil => rfl
  | cons kv rest ih =>
    simp [encEntries, decEntries, List.append_assoc, decStr_encStr,
      decRec_encRec, ih]

theorem toyLoads_toyDumps (m : RecordMap) : toyLoads (toyDumps m) = some m := by
  simp [toyDumps, toyLoads, decEntries_encEntries]

/-- Concrete instantiation of the library interface used by the witnesses:
key derivation by concatenation, a key-dependent byte shift in place of
AES-CBC, and the length-prefixed serializer in place of JSON. -/
def toyLib : CryptoLib where
  kdf := fun pw salt => pw ++ salt
  cbcE := fun k _ x => x.map fun b => b + k.sum
  cbcD := fun k _ x =>
    if x.length % 16 = 0 then some (x.map fun b => b - k.sum) else none
  dumps := toyDumps
  loads := toyLoads

theorem goodToy : GoodLib toyLib := by
  refine ⟨fun k iv x => by simp [toyLib], fun k iv x h => ?_,
    fun r => toyLoads_toyDumps r⟩
  simp [toyLib, h, List.map_map, Function.comp_def, Nat.add_sub_cancel]

/-- Concrete salt used by the witnesses (16 bytes, as `os.urandom(16)`). -/
def salt0 : List Nat := List.replicate 16 0

/-- Concrete IV used by the witnesses (16 bytes). -/
def iv0 : List Nat := List.replicate 16 1

/-- Concrete record used by the witnesses. -/
def rec0 : Record := ⟨"u", "pw", "e", "ph", "rm"⟩

/-- Concrete one-entry record map used by the witnesses. -/
def map0 : RecordMap := [("Mail", rec0)]

/-- Second concrete record used by the update witness. -/
def rec1 : Record := ⟨"u2", "pw2", "e2", "ph2", "rm2"⟩

/-- Concrete two-entry record map used by the update witness. -/
def map1 : RecordMap := [("Mail", rec0), ("Web", rec1)]

theorem padPlain_len (json : List Nat) :
    (padPlain json).length = json.length + (16 - json.length % 16) := by
  simp [padPlain]

theorem padPlain_mod (json : List Nat) : (padPlain json).length % 16 = 0 := by
  rw [padPlain_len]
  omega

theorem stripPad_padPlain (json : List Nat) :
    stripPad (padPlain json) = some json := by
  have hp : 0 < 16 - json.length % 16 := by omega
  have hlast : (padPlain json).getLast? = some (16 - json.length % 16) := by
    obtain ⟨m, hm⟩ : ∃ m, 16 - json.length % 16 = m + 1 :=
      ⟨16 - json.length % 16 - 1, by omega⟩
    rw [padPlain, hm, List.replicate_succ', ← List.append_assoc,
      List.getLast?_concat]
  have htake : (padPlain json).length - (16 - json.length % 16) = json.length := by
    rw [padPlain_len]; omega
  rw [stripPad.eq_def, hlast]
  simp only [if_neg (by omega : ¬ 16 - json.length % 16 = 0)]
  rw [htake, padPlain, List.take_left]

theorem load_data_some (L : CryptoLib) (p : String) (bytes : List Nat) :
    load_data L p (some bytes) =
      if (bytes.take 16).length ≠ 16 ∨ ((bytes.drop 16).take 16).length ≠ 16
      then none
      else decrypt L p (bytes.take 16) ((bytes.drop 16).take 16)
        (bytes.drop 32) := rfl

theorem load_data_split (L : CryptoLib) (p : String) (salt iv ct : List Nat)
    (hs : salt.length = 16) (hi : iv.length = 16) :
    load_data L p (some (salt ++ iv ++ ct)) = decrypt L p salt iv ct := by
  have h1 : (salt ++ iv ++ ct).take 16 = salt := by
    rw [List.append_assoc]; exact List.take_left' hs
  have h2 : ((salt ++ iv ++ ct).drop 16).take 16 = iv := by
    rw [List.append_assoc, List.drop_left' hs]; exact List.take_left' hi
  have h3 : (salt ++ iv ++ ct).drop 32 = ct :=
    List.drop_left' (by simp [hs, hi])
  rw [load_data_some, h1, h2, h3, hs, hi]
  simp

theorem decrypt_after_encrypt (L : CryptoLib) (h : GoodLib L) (p : String)
    (salt iv : List Nat) (R : RecordMap) :
    decrypt L p salt iv (encrypt L p salt iv R).2.2 = some R := by
  obtain ⟨hlen, hdec, hloads⟩ := h
  have hD := hdec (L.kdf (strBytes p) salt) iv (padPlain (L.dumps R))
    (padPlain_mod _)
  unfold decrypt encrypt
  simp only [hD, stripPad_padPlain, hloads]

theorem load_after_save (L : CryptoLib) (h : GoodLib L) (p : String)
    (R : RecordMap) (salt iv : List Nat)
    (hs : salt.length = 16) (hi : iv.length = 16) :
    load_data L p (some (save_data L p salt iv R).2) = some R := by
  have hbytes : (save_data L p salt iv R).2
      = salt ++ iv ++ (encrypt L p salt iv R).2.2 := rfl
  rw [hbytes, load_data_split L p salt iv _ hs hi,
    decrypt_after_encrypt L h p salt iv R]

/-- C1: for every record map R and passphrase P (and any fresh 16-byte salt
and IV, and any library satisfying the CBC and JSON contracts), loading
with P after saving with P returns exactly R: `PasswordDB.save_data`
JSON-serializes, pads, encrypts and writes salt, IV and ciphertext, and
`PasswordDB.load_data` inverts each step. -/
theorem c1_save_load_roundtrip (L : CryptoLib) (h : GoodLib L) (P : String)
    (R : RecordMap) (salt iv : List Nat)
    (hs : salt.length = 16) (hi : iv.length = 16) :
    load_data L P (some (save_data L P salt iv R).2) = some R :=
  load_after_save L h P R salt iv hs hi

theorem c1_witness :
    load_data toyLib "p" (some (save_data toyLib "p" salt0 iv0 map0).2)
      = some map0 :=
  c1_save_load_roundtrip toyLib goodToy "p" map0 salt0 iv0
    (by decide) (by decide)

/-- C2 counterexample: starting from a previously-good container (a valid
save under passphrase p), the write sequence of a second save passes
through the truncated state `some []`, which differs from both the old and
the new container and cannot be loaded — so a crash mid-write does leave a
truncated container in place of the good one, refuting the claimed
temp-file/rename atomicity. -/
theorem c2_counterexample :
    some ([] : List Nat) ∈
      save_write_states toyLib "p" salt0 iv0 map0
        (some (save_data toyLib "p" salt0 iv0 []).2) ∧
    some ([] : List Nat) ≠ some ((save_data toyLib "p" salt0 iv0 []).2) ∧
    some ([] : List Nat) ≠ some ((save_data toyLib "p" salt0 iv0 map0).2) ∧
    load_data toyLib "p" (some ([] : List Nat)) = none ∧
    load_data toyLib "p" (some ((save_data toyLib "p" salt0 iv0 []).2))
      = some [] :=
  ⟨by decide, by decide, by decide, by decide,
    load_after_save toyLib goodToy "p" [] salt0 iv0 (by decide) (by decide)⟩

/-- C2 (amended): `PasswordDB.save_data` writes the container in place —
`open(path, 'wb')` truncates the target, then salt, IV and ciphertext are
written in sequence — so an interrupted save leaves either the old
container or some prefix of the new bytes (including the empty
truncation); the write is not atomic. -/
theorem c2_crash_partial_write (L : CryptoLib) (p : String)
    (salt iv : List Nat) (R : RecordMap) (old : Option (List Nat))
    (s : Option (List Nat))
    (hmem : s ∈ save_write_states L p salt iv R old) :
    s = old ∨ ∃ n, s = some ((save_data L p salt iv R).2.take n) := by
  have hbytes : (save_data L p salt iv R).2
      = salt ++ iv ++ (encrypt L p salt iv R).2.2 := rfl
  simp only [save_write_states, List.mem_cons, List.not_mem_nil,
    or_false] at hmem
  rcases hmem with h | h | h | h | h
  · left; exact h
  · right; exact ⟨0, by simp [h]⟩
  · right
    refine ⟨salt.length, ?_⟩
    rw [h, hbytes, List.append_assoc, List.take_left]
  · right
    refine ⟨salt.length + iv.length, ?_⟩
    have hti : ((salt ++ iv) ++ (encrypt L p salt iv R).2.2).take
        (salt.length + iv.length) = salt ++ iv :=
      List.take_left' (by simp)
    rw [h, hbytes, hti]
  · right
    exact ⟨(save_data L p salt iv R).2.length, by rw [h, hbytes, List.take_length]⟩

theorem c2_witness :
    some ([] : List Nat) = none ∨
    ∃ n, some ([] : List Nat)
      = some ((save_data toyLib "p" salt0 iv0 map0).2.take n) :=
  c2_crash_partial_write toyLib "p" salt0 iv0 map0 none (some []) (by decide)

/-- C3: if the load step inside `PasswordDB.change_password` fails, the
rotation returns failure and the container is returned exactly as it was —
no write happens. -/
theorem c3_rotate_fail_untouched (L : CryptoLib)
    (old_password new_password : String) (salt iv : List Nat)
    (fs : Option (List Nat)) (h : load_data L old_password fs = none) :
    change_password L old_password new_password salt iv fs = (false, fs) := by
  unfold change_password
  rw [h]

theorem c3_witness :
    change_password toyLib "a" "b" salt0 iv0 (some [0]) = (false, some [0]) :=
  c3_rotate_fail_untouched toyLib "a" "b" salt0 iv0 (some [0]) (by decide)

/-- C4: if the container already exists, `PasswordDB.initialize_database`
returns success and leaves the container bytes (hence the effective
passphrase) unchanged, and running it twice in a row from any starting
state never changes the container produced by the first run. -/
theorem c4_init_idempotent (L : CryptoLib) (p1 p2 : String)
    (s1 i1 s2 i2 c : List Nat) (fs : Option (List Nat)) :
    init_database L p1 s1 i1 (some c) = (true, some c) ∧
    (init_database L p2 s2 i2 (init_database L p1 s1 i1 fs).2).2
      = (init_database L p1 s1 i1 fs).2 := by
  refine ⟨rfl, ?_⟩
  cases fs with
  | some c' => rfl
  | none => rfl

/-- C5: on a present container, every failure root — file too short to
hold salt and IV, block-decryption error, unpadding error, or a payload
that does not parse — makes `PasswordDB.load_data` return one and the same
value `none`; nothing about the cause is visible in the result. -/
theorem c5_uniform_failure (L : CryptoLib) (p : String) :
    (∀ bytes : List Nat, bytes.length < 32 →
      load_data L p (some bytes) = none) ∧
    (∀ bytes : List Nat,
      L.cbcD (L.kdf (strBytes p) (bytes.take 16)) ((bytes.drop 16).take 16)
          (bytes.drop 32) = none →
      load_data L p (some bytes) = none) ∧
    (∀ bytes padded : List Nat,
      L.cbcD (L.kdf (strBytes p) (bytes.take 16)) ((bytes.drop 16).take 16)
          (bytes.drop 32) = some padded →
      stripPad padded = none →
      load_data L p (some bytes) = none) ∧
    (∀ bytes padded plain : List Nat,
      L.cbcD (L.kdf (strBytes p) (bytes.take 16)) ((bytes.drop 16).take 16)
          (bytes.drop 32) = some padded →
      stripPad padded = some plain →
      L.loads plain = none →
      load_data L p (some bytes) = none) := by
  refine ⟨?_, ?_, ?_, ?_⟩
  · intro bytes hlen
    rw [load_data_some,
      if_pos (by simp only [List.length_take, List.length_drop]; omega)]
  · intro bytes hD
    rw [load_data_some]
    split
    · rfl
    · unfold decrypt
      simp only [hD]
  · intro bytes padded hD hstrip
    rw [load_data_some]
    split
    · rfl
    · unfold decrypt
      simp only [hD, hstrip]
  · intro bytes padded plain hD hstrip hloads
    rw [load_data_some]
    split
    · rfl
    · unfold decrypt
      simp only [hD, hstrip, hloads]

theorem c5_witness :
    load_data toyLib "p" (some [1, 2, 3]) = none ∧
    load_data toyLib "p" (some (List.replicate 33 0)) = none ∧
    load_data toyLib "p" (some (List.replicate 32 0)) = none ∧
    load_data toyLib "p" (some (List.replicate 48 0)) = none :=
  ⟨(c5_uniform_failure toyLib "p").1 [1, 2, 3] (by decide),
   (c5_uniform_failure toyLib "p").2.1 (List.replicate 33 0) (by decide),
   (c5_uniform_failure toyLib "p").2.2.1 (List.replicate 32 0) []
     (by decide) (by decide),
   (c5_uniform_failure toyLib "p").2.2.2 (List.replicate 48 0)
     (List.replicate 16 0) [] (by decide) (by decide) (by decide)⟩

/-- C6: for every passphrase, loading an absent container returns the
empty record map rather than a failure (first-run semantics). -/
theorem c6_absent_returns_empty (L : CryptoLib) (P : String) :
    load_data L P none = some ([] : RecordMap) := rfl

/-- C7: the bytes written by `PasswordDB.save_data` are
salt(16) ++ iv(16) ++ ciphertext, where the plaintext is the serialized
map padded with `padding_length` bytes each holding the value
`padding_length = 16 - (len mod 16)`, which lies in [1, 16]; since CBC
preserves length, the ciphertext length is a positive multiple of the
block size. -/
theorem c7_container_layout (L : CryptoLib) (h : GoodLib L) (p : String)
    (salt iv : List Nat) (R : RecordMap) :
    (save_data L p salt iv R).2
      = salt ++ iv ++ L.cbcE (L.kdf (strBytes p) salt) iv
          (L.dumps R ++ List.replicate (16 - (L.dumps R).length % 16)
            (16 - (L.dumps R).length % 16)) ∧
    1 ≤ 16 - (L.dumps R).length % 16 ∧
    16 - (L.dumps R).length % 16 ≤ 16 ∧
    (L.cbcE (L.kdf (strBytes p) salt) iv (padPlain (L.dumps R))).length % 16
      = 0 ∧
    0 < (L.cbcE (L.kdf (strBytes p) salt) iv (padPlain (L.dumps R))).length := by
  obtain ⟨hlen, -, -⟩ := h
  refine ⟨rfl, by omega, by omega, ?_, ?_⟩
  · rw [hlen]
    exact padPlain_mod _
  · rw [hlen, padPlain_len]
    omega

theorem c7_witness :
    (save_data toyLib "p" salt0 iv0 map0).2
      = salt0 ++ iv0 ++ toyLib.cbcE (toyLib.kdf (strBytes "p") salt0) iv0
          (toyLib.dumps map0
            ++ List.replicate (16 - (toyLib.dumps map0).length % 16)
              (16 - (toyLib.dumps map0).length % 16)) ∧
    1 ≤ 16 - (toyLib.dumps map0).length % 16 ∧
    16 - (toyLib.dumps map0).length % 16 ≤ 16 ∧
    (toyLib.cbcE (toyLib.kdf (strBytes "p") salt0) iv0
      (padPlain (toyLib.dumps map0))).length % 16 = 0 ∧
    0 < (toyLib.cbcE (toyLib.kdf (strBytes "p") salt0) iv0
      (padPlain (toyLib.dumps map0))).length :=
  c7_container_layout toyLib goodToy "p" salt0 iv0 map0

/-- C8: after a save under P1, the result of loading under any P2 is
exactly the structural-validation chain — CBC-decrypt the stored
ciphertext under P2's derived key, strip the padding, parse — so a wrong
passphrase is detected precisely by unpadding/parse validation of the
decrypted bytes, and any such failure yields the single value `none`.
The "overwhelming majority of P2" part of the claim is a property of the
real cipher and is witnessed here on a concrete rejecting instance. -/
theorem c8_wrong_key_structural (L : CryptoLib) (P1 P2 : String)
    (R : RecordMap) (salt iv : List Nat)
    (hs : salt.length = 16) (hi : iv.length = 16) :
    load_data L P2 (some (save_data L P1 salt iv R).2)
      = decrypt L P2 salt iv
          (L.cbcE (L.kdf (strBytes P1) salt) iv (padPlain (L.dumps R))) := by
  have hbytes : (save_data L P1 salt iv R).2
      = salt ++ iv
        ++ L.cbcE (L.kdf (strBytes P1) salt) iv (padPlain (L.dumps R)) := rfl
  rw [hbytes, load_data_split L P2 salt iv _ hs hi]

theorem c8_witness :
    load_data toyLib "zz" (some (save_data toyLib "a" salt0 iv0 []).2)
      = none := by
  rw [c8_wrong_key_structural toyLib "a" "zz" [] salt0 iv0
    (by decide) (by decide)]
  decide

theorem lookupKey_applyUpdate (m : RecordMap) (name k : String)
    (a p e ph rm : Option String) :
    lookupKey k (applyUpdate m name a p e ph rm)
      = if k = name
        then (lookupKey k m).map fun r => mergeRec r a p e ph rm
        else lookupKey k m := by
  induction m with
  | nil => simp [applyUpdate, lookupKey]
  | cons kv rest ih =>
    by_cases hkv : kv.1 = name <;> by_cases hk : k = name <;>
      by_cases hkvk : kv.1 = k <;>
      simp_all [applyUpdate, lookupKey]

/-- C9: for an authenticated session over a loadable container and an
existing record key, `PasswordManager.update_password` succeeds; reloading
yields the map in which the named record has each of its five fields
replaced exactly when a new value was supplied (`Option.getD` keeps the
prior value for an omitted field) and every other record is unchanged. -/
theorem c9_update_field_merge (L : CryptoLib) (h : GoodLib L)
    (pw : String) (fs : Option (List Nat)) (m : RecordMap)
    (hload : load_data L pw fs = some m)
    (name : String) (oldRec : Record)
    (hkey : lookupKey name m = some oldRec)
    (a p e ph rm : Option String) (salt iv : List Nat)
    (hs : salt.length = 16) (hi : iv.length = 16) :
    (update_password L ⟨fs, some pw⟩ name a p e ph rm salt iv).1 = true ∧
    load_data L pw
        (update_password L ⟨fs, some pw⟩ name a p e ph rm salt iv).2.fs
      = some (applyUpdate m name a p e ph rm) ∧
    (∀ k, k ≠ name →
      lookupKey k (applyUpdate m name a p e ph rm) = lookupKey k m) ∧
    lookupKey name (applyUpdate m name a p e ph rm)
      = some { account := a.getD oldRec.account
               password := p.getD oldRec.password
               email := e.getD oldRec.email
               phone := ph.getD oldRec.phone
               remark := rm.getD oldRec.remark } := by
  have hauth : is_authenticated L ⟨fs, some pw⟩ = true := by
    simp [is_authenticated, hload]
  have hget : mgrGetData L ⟨fs, some pw⟩ = some m := by
    simp [mgrGetData, hauth, hload]
  have hcont : containsKey name m = true := by
    simp [containsKey, hkey]
  have hupd : update_password L ⟨fs, some pw⟩ name a p e ph rm salt iv
      = (true, ⟨some (save_data L pw salt iv
          (applyUpdate m name a p e ph rm)).2, some pw⟩) := by
    unfold update_password mgrSaveData
    simp [hget, hcont, hauth, save_data]
  refine ⟨by rw [hupd], ?_, ?_, ?_⟩
  · rw [hupd]
    exact load_after_save L h pw _ salt iv hs hi
  · intro k hk
    rw [lookupKey_applyUpdate]
    simp [hk]
  · rw [lookupKey_applyUpdate]
    simp [hkey, mergeRec]

theorem c9_witness :
    (update_password toyLib
        ⟨some (save_data toyLib "p" salt0 iv0 map1).2, some "p"⟩
        "Mail" (some "newu") none none none none salt0 iv0).1 = true ∧
    load_data toyLib "p"
        (update_password toyLib
          ⟨some (save_data toyLib "p" salt0 iv0 map1).2, some "p"⟩
          "Mail" (some "newu") none none none none salt0 iv0).2.fs
      = some (applyUpdate map1 "Mail" (some "newu") none none none none) ∧
    lookupKey "Web" (applyUpdate map1 "Mail" (some "newu") none none none none)
      = lookupKey "Web" map1 ∧
    lookupKey "Mail" (applyUpdate map1 "Mail" (some "newu") none none none none)
      = some { account := (some "newu").getD rec0.account
               password := (none : Option String).getD rec0.password
               email := (none : Option String).getD rec0.email
               phone := (none : Option String).getD rec0.phone
               remark := (none : Option String).getD rec0.remark } := by
  obtain ⟨h1, h2, h3, h4⟩ := c9_update_field_merge toyLib goodToy "p"
    (some (save_data toyLib "p" salt0 iv0 map1).2) map1
    (load_after_save toyLib goodToy "p" map1 salt0 iv0 (by decide) (by decide))
    "Mail" rec0 (by decide) (some "newu") none none none none salt0 iv0
    (by decide) (by decide)
  exact ⟨h1, h2, h3 "Web" (by decide), h4⟩

/-- C10: when the container file is absent, `PasswordManager.authenticate`
succeeds for every supplied passphrase P (the empty string included),
because first-run load returns the empty map; P is stored as the session
passphrase, and a subsequent session save encrypts under exactly that P. -/
theorem c10_authenticate_absent (L : CryptoLib) (cp : Option String)
    (P : String) :
    authenticate L ⟨none, cp⟩ P = (true, ⟨none, some P⟩) ∧
    (∀ (data : RecordMap) (salt iv : List Nat),
      mgrSaveData L (authenticate L ⟨none, cp⟩ P).2 data salt iv
        = (true, ⟨some (save_data L P salt iv data).2, some P⟩)) := by
  exact ⟨rfl, fun data salt iv => rfl⟩
